import Mathlib

/-!
Shallow embedding of `update_data.py` (TakashiKitamura76/us-stock-info).

The script is a linear batch pipeline: load the S&P 500 constituents,
fetch a quote and the most recent earnings-surprise record per symbol
from the Finnhub API, keep the symbols whose actual EPS and revenue both
beat the estimates, sort them by symbol, render an HTML page with
`build_html` and write it out.

Modelling conventions:
  * Python floats are modelled as rationals (`ℚ`); none of the claims
    depends on binary floating-point rounding.
  * Network I/O is modelled by a `World` of responses indexed by symbol;
    the driver threads an explicit request log so that "zero network
    requests" is statable.
  * A Python function that can raise returns `Option`/`Except`; the
    `try/except` blocks of the source become the corresponding `match`.
  * `str.format` (which `build_html` applies to the whole joined
    template) is modelled by an explicit scanner `scanFmt`, because the
    template's literal CSS braces make that call raise a `KeyError` in
    the source.
-/

namespace UsStockInfo

/-- JSON field values that can appear in the numeric fields the script
reads: a number, or `null` (Python `None`).  `float` applied to a number
succeeds, applied to `None` raises `TypeError`. -/
inductive JVal where
  | num (q : ℚ)
  | null
deriving DecidableEq

/-- Model of Python's `float(v)` on the values of `JVal`: a number
converts, `None` raises (`Except.error`). -/
def pyFloat : JVal → Except Unit ℚ
  | .num q => .ok q
  | .null => .error ()

/-- One raw record of the Finnhub `/stock/earnings` response body, as the
code reads it: each of the four fields may be absent (`none`, JSON key
missing) or present with a value. -/
structure RecRaw where
  actual : Option JVal
  estimate : Option JVal
  revenueActual : Option JVal
  revenueEstimate : Option JVal
deriving DecidableEq

/-- The record `fetch_last_earnings` builds: the four float fields of the
most recent earnings surprise. -/
structure EarningsRecord where
  actual_eps : ℚ
  estimate_eps : ℚ
  actual_revenue : ℚ
  estimate_revenue : ℚ
deriving DecidableEq

/-- `fetch_quote(session, symbol, token)`, given the outcome of the HTTP
exchange for the symbol.  The argument is `none` when the request itself
failed (network error, timeout, non-2xx via `raise_for_status`, body not
JSON); otherwise `some f` where `f` is `data.get("c")`: `none` when the
`"c"` key is missing (Python `None` default), else the value.  The source
computes `float(data.get("c"))` inside `try: ... except Exception:
return None`. -/
def fetch_quote (resp : Option (Option JVal)) : Option ℚ :=
  match resp with
  | none => none
  | some field =>
    match pyFloat (field.getD .null) with
    | .ok q => some q
    | .error _ => none

/-- `fetch_last_earnings(session, symbol, token)`, given the outcome of
the HTTP exchange: `none` when the request failed or the body was
malformed, otherwise `some records` for the decoded JSON list.  The
source takes the first record and builds the four floats with
`float(rec.get(key, 0))` — a missing key defaults to `0`, and only a
raising `float` (e.g. on `None`) is caught and turned into `None`. -/
def fetch_last_earnings (resp : Option (List RecRaw)) : Option EarningsRecord :=
  match resp with
  | none => none
  | some [] => none
  | some (rec :: _) =>
    match pyFloat (rec.actual.getD (.num 0)), pyFloat (rec.estimate.getD (.num 0)),
        pyFloat (rec.revenueActual.getD (.num 0)), pyFloat (rec.revenueEstimate.getD (.num 0)) with
    | .ok a, .ok b, .ok c, .ok d =>
      some { actual_eps := a, estimate_eps := b, actual_revenue := c, estimate_revenue := d }
    | _, _, _, _ => none

/-- `is_good_earnings(record)`: actual EPS and actual revenue both
strictly exceed the estimates. -/
def is_good_earnings (record : EarningsRecord) : Bool :=
  decide (record.actual_eps > record.estimate_eps)
    && decide (record.actual_revenue > record.estimate_revenue)

/-- The value `float(rec.get(key, 0))` produces for a field that is
absent or numeric (the non-raising cases): the number if present, `0`
when the key is missing. -/
def optVal : Option JVal → ℚ
  | some (.num q) => q
  | _ => 0

/-- One S&P 500 constituent as `get_sp500_symbols` yields it. -/
structure Constituent where
  symbol : String
  name : String
deriving DecidableEq

/-- One row entry of the report, as the driver builds it
(`{"name": ..., "symbol": ..., "price": ..., "good": ...}`). -/
structure Entry where
  name : String
  symbol : String
  price : ℚ
  good : Bool
deriving DecidableEq

/-- Python string comparison `s <= t` is lexicographic on code points;
structural so that it evaluates on concrete inputs. -/
def lexLe : List Char → List Char → Bool
  | [], _ => true
  | _ :: _, [] => false
  | a :: as, b :: bs =>
    if a < b then true
    else if b < a then false
    else lexLe as bs

/-- The sort key comparison of `entries.sort(key=lambda e: e["symbol"])`. -/
def symbolLe (a b : Entry) : Bool :=
  lexLe a.symbol.data b.symbol.data

/-- Insert an entry into an already sorted list, before the first
strictly larger symbol. -/
def insertEntry (e : Entry) : List Entry → List Entry
  | [] => [e]
  | x :: xs => if symbolLe e x then e :: x :: xs else x :: insertEntry e xs

/-- `entries.sort(key=lambda e: e["symbol"])`: Python's sort is a stable
sort ascending by the key; modelled by stable insertion sort, which is
observationally the same total function. -/
def sortEntries : List Entry → List Entry
  | [] => []
  | x :: xs => insertEntry x (sortEntries xs)

/-- One network request of the pipeline, for the request log. -/
inductive Request where
  | constituents
  | quote (symbol : String)
  | earnings (symbol : String)
deriving DecidableEq

/-- The outside world one run observes: the result of the constituent
scrape and, per symbol, the outcomes of the two Finnhub endpoints (in the
encodings `fetch_quote` and `fetch_last_earnings` take). -/
structure World where
  constituents : Option (List Constituent)
  quoteResp : String → Option (Option JVal)
  earnResp : String → Option (List RecRaw)

/-- The per-constituent loop of `main`: fetch quote and earnings, skip
the symbol if either is `None` (`continue`), evaluate the predicate and
append the entry only when it is good.  Also returns the network requests
made, in order (the source fetches both endpoints for every symbol before
checking either result). -/
def fetchLoop (w : World) : List Constituent → List Entry × List Request
  | [] => ([], [])
  | item :: rest =>
    let quote := fetch_quote (w.quoteResp item.symbol)
    let earnings := fetch_last_earnings (w.earnResp item.symbol)
    let tail := fetchLoop w rest
    let reqs := Request.quote item.symbol :: Request.earnings item.symbol :: tail.2
    match quote, earnings with
    | some price, some earn =>
      let good := is_good_earnings earn
      if good then
        ({ name := item.name, symbol := item.symbol, price := price, good := good } :: tail.1,
          reqs)
      else (tail.1, reqs)
    | _, _ => (tail.1, reqs)

/-- The list `main` passes to `build_html`: the loop's entries, sorted by
symbol (`entries.sort(key=lambda e: e["symbol"])`). -/
def driverEntries (w : World) (cs : List Constituent) : List Entry :=
  sortEntries (fetchLoop w cs).1

/-- The startup credential check of `main`: `token =
os.getenv("FINNHUB_API_KEY")` is `None` when the variable is absent, and
`if not token` also treats the empty string as missing; both raise
`RuntimeError` before any other work. -/
def tokenErrMsg : String :=
  "FINNHUB_API_KEY environment variable not set. Please supply your Finnhub API key."

/-- The credential check itself. -/
def checkToken : Option String → Except String String
  | none => .error tokenErrMsg
  | some t => if t = "" then .error tokenErrMsg else .ok t

/-- Round a rational to the nearest integer, ties to even — the rounding
`format(x, ".2f")` applies to the scaled value.  (Prices are modelled as
rationals; Python rounds the binary double, which agrees on the values
used here.) -/
def roundHalfEven (q : ℚ) : ℤ :=
  if q - ⌊q⌋ < 1 / 2 then ⌊q⌋
  else if 1 / 2 < q - ⌊q⌋ then ⌊q⌋ + 1
  else if ⌊q⌋ % 2 = 0 then ⌊q⌋ else ⌊q⌋ + 1

/-- Python's `f"{price:.2f}"`: the price rendered with exactly two
digits after the decimal point. -/
def fmt2 (q : ℚ) : String :=
  let n := roundHalfEven (q * 100)
  let a := n.natAbs
  let frac := a % 100
  (if n < 0 then "-" else "") ++ toString (a / 100) ++ "."
    ++ (if frac < 10 then "0" ++ toString frac else toString frac)

/-- The f-string row of `build_html`'s loop, one `<tr>` per entry (the
f-string interpolation happens before the final `.format` call). -/
def rowHtml (entry : Entry) : String :=
  let cls := if entry.good then "good" else "no"
  let result_text := if entry.good then "良い決算" else "該当なし"
  "          <tr><td>" ++ entry.name ++ "</td><td>" ++ entry.symbol ++ "</td><td>"
    ++ fmt2 entry.price ++ "</td><td class=\"" ++ cls ++ "\">" ++ result_text ++ "</td></tr>"

/-- The fixed strings of `html_parts` before the row loop (source lines
149-209), character for character. -/
def htmlHeaderParts : List String :=
  ["<!DOCTYPE html>",
   "<html lang=\"ja\">",
   "<head>",
   "  <meta charset=\"UTF-8\">",
   "  <meta name=\"viewport\" content=\"width=device-width, initial-scale=1.0\">",
   "  <title>AI広瀬の米国株決算分析</title>",
   "  <style>",
   "    body \x7b font-family: \x27Helvetica Neue\x27, Arial, sans-serif; margin: 0; padding: 0; background-color: #f7f9fc; color: #333; line-height: 1.6; \x7d",
   "    header \x7b background: linear-gradient(60deg, #007bff, #0d47a1); color: #fff; padding: 50px 20px; text-align: center; \x7d",
   "    header h1 \x7b margin: 0; font-size: 2.2rem; \x7d",
   "    header .tagline \x7b margin-top: 10px; font-size: 1.1rem; opacity: 0.85; \x7d",
   "    main \x7b max-width: 960px; margin: 0 auto; padding: 40px 20px; \x7d",
   "    h2 \x7b margin-top: 0; margin-bottom: 15px; color: #0d47a1; border-bottom: 2px solid #007bff; padding-bottom: 4px; font-size: 1.6rem; \x7d",
   "    section \x7b margin-bottom: 40px; \x7d",
   "    p \x7b margin-bottom: 20px; font-size: 0.98rem; \x7d",
   "    ol \x7b margin-left: 20px; margin-bottom: 20px; \x7d",
   "    ol li \x7b margin-bottom: 5px; \x7d",
   "    table \x7b width: 100%; border-collapse: collapse; background-color: #fff; box-shadow: 0 2px 4px rgba(0,0,0,0.05); font-size: 0.92rem; \x7d",
   "    table th, table td \x7b padding: 12px 15px; border-bottom: 1px solid #e0e6ed; vertical-align: middle; \x7d",
   "    table th \x7b background-color: #f3f6fa; text-align: left; font-weight: 600; \x7d",
   "    table tbody tr:nth-child(even) \x7b background-color: #fafbfc; \x7d",
   "    table tbody tr:hover \x7b background-color: #f1f5fa; \x7d",
   "    .good \x7b color: #27ae60; font-weight: 600; \x7d",
   "    .no \x7b color: #c0392b; font-weight: 600; \x7d",
   "    .note \x7b font-size: 0.8rem; color: #666; \x7d",
   "    footer \x7b text-align: center; padding: 25px 10px; background-color: #f3f6fa; color: #444; font-size: 0.85rem; \x7d",
   "    footer a \x7b color: #0d47a1; text-decoration: none; \x7d",
   "  </style>",
   "</head>",
   "<body>",
   "  <header>",
   "    <h1>AI広瀬の米国株決算分析</h1>",
   "    <p class=\"tagline\">個人投資家のための米国株情報サイト</p>",
   "  </header>",
   "  <main>",
   "    <section id=\"about\">",
   "      <h2>サイト概要</h2>",
   "      <p>当サイトは、S&P500 に含まれる米国株を対象に、決算情報と株価を自動収集し、<strong>良い決算</strong>を出した企業を一覧表示します。広瀬隆雄氏が提唱する『良い決算』の条件に基づいて、最新の EPS と売上高が市場予想を上回った銘柄だけを掲載しています。各行では企業名、ティッカー、現在株価、評価結果を確認できます。</p>",
   "    </section>",
   "    <section id=\"good-earnings\">",
   "      <h2>『良い決算』とは？</h2>",
   "      <p>広瀬隆雄氏によると、『良い決算』とは次の 3 つの指標がすべて市場予想（コンセンサス）を上回る決算を指します<sup><a href=\"#cite-hirosekessan\">[1]</a></sup>。</p>",
   "      <ol>",
   "        <li>EPS（1株当たり利益）</li>",
   "        <li>売上高</li>",
   "        <li>会社側ガイダンス（来期・今年度の見通し）</li>",
   "      </ol>",
   "      <p>本サイトではガイダンスデータが取得できないため、1 と 2 の条件を満たす企業を『良い決算』としています。</p>",
   "    </section>",
   "    <section id=\"table-section\">",
   "      <h2>良い決算を出した銘柄一覧</h2>",
   "      <table>",
   "        <thead>",
   "          <tr>",
   "            <th>企業名</th>",
   "            <th>ティッカー</th>",
   "            <th>株価（USD）</th>",
   "            <th>評価結果</th>",
   "          </tr>",
   "        </thead>",
   "        <tbody>"]

/-- The fixed strings `build_html` extends after the row loop (source
lines 221-233), character for character. -/
def htmlFooterParts : List String :=
  ["        </tbody>",
   "      </table>",
   "      <p class=\"note\">表に表示されているデータは Finnhub API を使用して生成されています。API は RESTful な JSON 形式でレスポンスを返し、すべての GET リクエストで token パラメータが必要です【421114312369163†L139-L154】。API キーの設定方法についてはリポジトリの README を参照してください。</p>",
   "    </section>",
   "    <section id=\"footnotes\">",
   "      <p id=\"cite-hirosekessan\" class=\"note\"><strong>[1]</strong> 良い決算の条件は EPS、売上高、会社ガイダンスが市場予想をすべて上回ること【643053757984928†L296-L304】。</p>",
   "    </section>",
   "  </main>",
   "  <footer>",
   "    <p>&copy; \x7byear\x7d AI広瀬の米国株決算分析. All rights reserved.</p>",
   "  </footer>",
   "</body>",
   "</html>"]

/-- The full `html_parts` list after the row loop. -/
def html_parts (entries : List Entry) : List String :=
  htmlHeaderParts ++ entries.map rowHtml ++ htmlFooterParts

/-- Python's `"\n".join(...)`. -/
def joinNl : List String → String
  | [] => ""
  | [s] => s
  | s :: rest => s ++ "\n" ++ joinNl rest

/-- How a `str.format` call can raise.  `truncated` stands for the
errors CPython reports when the template ends inside a replacement
field; the others are raised mid-string. -/
inductive FmtErr where
  | key (name : String)
  | emptyField
  | closeBrace
  | openBraceInField
  | badConversion
  | truncated
deriving DecidableEq

/-- The scanner state of the `str.format` model: literal text, just saw
an opening or closing brace, reading a field name, a conversion, or a
format spec (with brace nesting depth). -/
inductive ScanMode where
  | lit
  | sawOpen
  | sawClose
  | field (acc : List Char)
  | conv (nm : List Char)
  | afterConv (nm : List Char)
  | spec (nm : List Char) (depth : Nat)
deriving DecidableEq

/-- One step of the scanner: emit output and continue, or raise. -/
inductive StepRes where
  | emit (out : List Char) (next : ScanMode)
  | fail (e : FmtErr)
deriving DecidableEq

/-- A replacement field is complete.  The call passes the single keyword
argument `year`, so the field `year` is substituted with `str(year)` and
every other field name raises (`KeyError`, as CPython does for a keyword
lookup; an empty name would be an auto-numbered positional lookup, which
also raises since no positional arguments are passed). -/
def fieldEnd (y : Int) (nm : List Char) : StepRes :=
  if nm = "year".data then .emit (toString y).data .lit
  else if nm = [] then .fail .emptyField
  else .fail (.key (String.mk nm))

/-- The transition function of the `str.format` scanner on one
character.  Mirrors CPython's parser: `\x7b\x7b`/`\x7d\x7d` are literal
braces, a lone close-brace raises, a field name runs to `:` (format
spec), `!` (conversion) or the closing brace, and a format spec runs to
its matching close-brace.  (For the one valid field, `year` with an
empty spec, the substituted text is `str(year)`.) -/
def fmtStep (y : Int) (st : ScanMode) (c : Char) : StepRes :=
  match st with
  | .lit =>
    if c = '{' then .emit [] .sawOpen
    else if c = '}' then .emit [] .sawClose
    else .emit [c] .lit
  | .sawOpen =>
    if c = '{' then .emit ['{'] .lit
    else if c = '}' then fieldEnd y []
    else if c = ':' then .emit [] (.spec [] 0)
    else if c = '!' then .emit [] (.conv [])
    else .emit [] (.field [c])
  | .sawClose =>
    if c = '}' then .emit ['}'] .lit
    else .fail .closeBrace
  | .field acc =>
    if c = '}' then fieldEnd y acc
    else if c = ':' then .emit [] (.spec acc 0)
    else if c = '!' then .emit [] (.conv acc)
    else if c = '{' then .fail .openBraceInField
    else .emit [] (.field (acc ++ [c]))
  | .conv nm => .emit [] (.afterConv nm)
  | .afterConv nm =>
    if c = '}' then fieldEnd y nm
    else if c = ':' then .emit [] (.spec nm 0)
    else .fail .badConversion
  | .spec nm depth =>
    if c = '{' then .emit [] (.spec nm (depth + 1))
    else if c = '}' then
      match depth with
      | 0 => fieldEnd y nm
      | d + 1 => .emit [] (.spec nm d)
    else .emit [] (.spec nm depth)

/-- The `str.format` scan over the template's characters. -/
def scanFmt (y : Int) (st : ScanMode) : List Char → Except FmtErr (List Char)
  | [] =>
    match st with
    | .lit => .ok []
    | .sawClose => .error .closeBrace
    | _ => .error .truncated
  | c :: rest =>
    match fmtStep y st c with
    | .emit out next => (out ++ ·) <$> scanFmt y next rest
    | .fail e => .error e

/-- `template.format(year=y)`. -/
def pyFormatYear (y : Int) (s : String) : Except FmtErr String :=
  (scanFmt y .lit s.data).map String.mk

/-- `build_html(entries)`: joins the template parts with newlines and
applies `.format(year=datetime.now().year)` to the WHOLE joined string
(the current year is the explicit argument here).  A raise surfaces as
`Except.error`. -/
def build_html (entries : List Entry) (year : Int) : Except FmtErr String :=
  pyFormatYear year (joinNl (html_parts entries))

/-- A two-symbol scenario world: quotes available for `ZZZ` and `AAA`,
and an earnings record that qualifies, for every symbol. -/
def exampleWorld : World where
  constituents := some [{ symbol := "ZZZ", name := "Zeta Corp" },
                        { symbol := "AAA", name := "Alpha Corp" }]
  quoteResp := fun s =>
    if s = "ZZZ" then some (some (.num 10))
    else if s = "AAA" then some (some (.num 20))
    else none
  earnResp := fun _ =>
    some [{ actual := some (.num 2), estimate := some (.num 1),
            revenueActual := some (.num 500), revenueEstimate := some (.num 400) }]

/-- Like `exampleWorld`, but the quote request for `ZZZ` fails (simulated
network error) while its earnings would qualify. -/
def wFail : World where
  constituents := some [{ symbol := "ZZZ", name := "Zeta Corp" },
                        { symbol := "AAA", name := "Alpha Corp" }]
  quoteResp := fun s =>
    if s = "ZZZ" then none
    else some (some (.num 20))
  earnResp := fun _ =>
    some [{ actual := some (.num 2), estimate := some (.num 1),
            revenueActual := some (.num 500), revenueEstimate := some (.num 400) }]

/-- Errors `main` can die with: the fatal credential check, the fatal
constituent-scrape failure, and an uncaught raise out of `build_html`. -/
inductive MainErr where
  | config (msg : String)
  | constituentsDown
  | render (e : FmtErr)
deriving DecidableEq

/-- The whole of `main`, returning the outcome (on success, the HTML
written to `site/index.html` and the count the final `print` reports)
together with the network requests performed, in order.  The credential
check precedes every request; the constituent scrape precedes the
per-symbol loop; a `None` scrape outcome is the fatal
`pd.read_html` failure. -/
def mainModel (token : Option String) (w : World) (year : Int) :
    Except MainErr (String × Nat) × List Request :=
  match checkToken token with
  | .error msg => (.error (.config msg), [])
  | .ok _tok =>
    match w.constituents with
    | none => (.error .constituentsDown, [Request.constituents])
    | some sp500 =>
      let loop := fetchLoop w sp500
      let entries := sortEntries loop.1
      let reqs := Request.constituents :: loop.2
      match build_html entries year with
      | .error e => (.error (.render e), reqs)
      | .ok html => (.ok (html, entries.length), reqs)

end UsStockInfo

namespace UsStockInfo

theorem pyFloat_getD_of_ne_null (o : Option JVal) (h : o ≠ some .null) :
    pyFloat (o.getD (.num 0)) = .ok (optVal o) := by
  match o with
  | none => rfl
  | some (.num q) => rfl
  | some .null => exact absurd rfl h

/-- C1: `is_good_earnings` is the conjunction of the two strict
comparisons.  Returns `true` exactly when actual EPS strictly exceeds the
EPS estimate and actual revenue strictly exceeds the revenue estimate;
equivalently, it returns `false` exactly when either comparison is `≤`
(so equality on either field yields `false`). -/
theorem good_earnings_iff_strict_beats (record : EarningsRecord) :
    (is_good_earnings record = true ↔
      record.actual_eps > record.estimate_eps ∧
        record.actual_revenue > record.estimate_revenue) ∧
    (is_good_earnings record = false ↔
      record.actual_eps ≤ record.estimate_eps ∨
        record.actual_revenue ≤ record.estimate_revenue) := by
  constructor
  · simp [is_good_earnings]
  · simp [is_good_earnings, Bool.and_eq_false_iff, ← not_lt, or_comm]
    tauto

/-- C4 counterexample: a response whose first record is missing the
`actual` EPS field (the other three fields numeric) does NOT map to the
"unavailable" sentinel: `rec.get("actual", 0)` defaults the missing
field to `0` and a record is returned. -/
theorem missing_field_defaults_to_zero :
    fetch_last_earnings
        (some [{ actual := none, estimate := some (.num 2),
                 revenueActual := some (.num 500), revenueEstimate := some (.num 480) }])
      = some { actual_eps := 0, estimate_eps := 2,
               actual_revenue := 500, estimate_revenue := 480 } ∧
    (fetch_last_earnings
        (some [{ actual := none, estimate := some (.num 2),
                 revenueActual := some (.num 500), revenueEstimate := some (.num 480) }])).isSome
      = true := by
  constructor <;> rfl

/-- C4 amended: a failed or malformed fetch and an empty record list map
to `none`, but a first record whose present fields are numeric always
yields a record — each missing field is defaulted to `0`, never treated
as "unavailable".  (`none` also results when a present field holds
`null`, since `float(None)` raises and is caught.) -/
theorem last_earnings_defaults_missing_fields (rec : RecRaw) (rest : List RecRaw)
    (h₁ : rec.actual ≠ some .null) (h₂ : rec.estimate ≠ some .null)
    (h₃ : rec.revenueActual ≠ some .null) (h₄ : rec.revenueEstimate ≠ some .null) :
    fetch_last_earnings (some (rec :: rest))
      = some { actual_eps := optVal rec.actual, estimate_eps := optVal rec.estimate,
               actual_revenue := optVal rec.revenueActual,
               estimate_revenue := optVal rec.revenueEstimate } ∧
    fetch_last_earnings none = none ∧ fetch_last_earnings (some []) = none := by
  refine ⟨?_, rfl, rfl⟩
  simp only [fetch_last_earnings, pyFloat_getD_of_ne_null _ h₁, pyFloat_getD_of_ne_null _ h₂,
    pyFloat_getD_of_ne_null _ h₃, pyFloat_getD_of_ne_null _ h₄]

theorem joinNl_cons_cons (a x : String) (rest : List String) :
    joinNl (a :: x :: rest) = a ++ "\n" ++ joinNl (x :: rest) := rfl

theorem joinNl_append (a : String) (as : List String) (b : String) (bs : List String) :
    joinNl ((a :: as) ++ (b :: bs)) = joinNl (a :: as) ++ "\n" ++ joinNl (b :: bs) := by
  induction as generalizing a with
  | nil => rfl
  | cons x xs ih =>
    show a ++ "\n" ++ joinNl ((x :: xs) ++ (b :: bs)) = _
    rw [ih x, joinNl_cons_cons a x xs]
    simp [String.append_assoc]

theorem scanFmt_key_append (y : Int) (nm : String) (l₁ : List Char) :
    ∀ (st : ScanMode) (l₂ : List Char),
      scanFmt y st l₁ = .error (.key nm) →
      scanFmt y st (l₁ ++ l₂) = .error (.key nm) := by
  induction l₁ with
  | nil =>
    intro st l₂ h
    cases st <;> simp [scanFmt] at h
  | cons c t ih =>
    intro st l₂ h
    rw [List.cons_append]
    rw [scanFmt] at h ⊢
    cases hstep : fmtStep y st c with
    | fail e => rw [hstep] at h; exact h
    | emit out next =>
      rw [hstep] at h
      have h' : (fun x => out ++ x) <$> scanFmt y next t = Except.error (.key nm) := h
      cases hin : scanFmt y next t with
      | ok v => rw [hin] at h'; simp [Except.map] at h'
      | error e =>
        rw [hin] at h'
        have he : e = FmtErr.key nm := by simpa [Except.map] using h'
        subst he
        show (fun x => out ++ x) <$> scanFmt y next (t ++ l₂) = _
        rw [ih next l₂ hin]
        rfl

set_option maxRecDepth 4000 in
theorem scanFmt_css_front (y : Int) :
    scanFmt y .lit (joinNl (htmlHeaderParts.take 8) ++ "\n").data
      = .error (.key " font-family") := rfl

/-- The renderer always raises: the joined template's first replacement
field is the unescaped CSS block of the `body` rule, whose field name
" font-family" is not a keyword of the `.format(year=...)` call. -/
theorem buildHtml_always_fails (entries : List Entry) (y : Int) :
    build_html entries y = .error (.key " font-family") := by
  obtain ⟨a, as, hta⟩ : ∃ a as, htmlHeaderParts.take 8 = a :: as := ⟨_, _, rfl⟩
  obtain ⟨b, bs, htd⟩ : ∃ b bs, htmlHeaderParts.drop 8 = b :: bs := ⟨_, _, rfl⟩
  have hparts : html_parts entries
      = (a :: as) ++ (b :: (bs ++ (entries.map rowHtml ++ htmlFooterParts))) := by
    rw [html_parts]
    conv_lhs => rw [← List.take_append_drop 8 htmlHeaderParts]
    rw [hta, htd]
    simp [List.append_assoc]
  rw [build_html, hparts, joinNl_append, pyFormatYear]
  rw [String.data_append]
  rw [scanFmt_key_append y " font-family" (joinNl (a :: as) ++ "\n").data .lit _ ?front]
  · rfl
  case front =>
    rw [← hta]
    exact scanFmt_css_front y

/-- C2: the renderer's "cannot fail on well-formed entries" contract is
violated for EVERY list of well-formed entries: the `.format(year=...)`
call over the whole joined template hits the unescaped CSS braces and
raises `KeyError(" font-family")` before producing anything. -/
theorem build_html_error_branch_always_taken (entries : List Entry) (y : Int) :
    build_html entries y = .error (.key " font-family") :=
  buildHtml_always_fails entries y

/-- C3: on the empty entry list the loop contributes zero row strings
(the parts are exactly header plus footer) — but the document is NOT
produced: the final `.format` call still raises on the template's CSS
braces. -/
theorem build_html_empty_list :
    html_parts [] = htmlHeaderParts ++ htmlFooterParts ∧
    build_html [] 2026 = .error (.key " font-family") :=
  ⟨by simp [html_parts], buildHtml_always_fails [] 2026⟩

/-- C9: the row string built for the qualifying entry (Alpha Corp, AAA,
price 101.23) is exactly one `<tr>` with name, symbol, two-decimal price
and the qualifying label — but the rendered document never materialises:
`build_html` on that single entry raises on the template's CSS braces
before the rows are ever emitted. -/
theorem alpha_row_and_render_failure :
    rowHtml { name := "Alpha Corp", symbol := "AAA", price := 10123 / 100, good := true }
      = "          <tr><td>Alpha Corp</td><td>AAA</td><td>101.23</td><td class=\"good\">良い決算</td></tr>" ∧
    build_html [{ name := "Alpha Corp", symbol := "AAA", price := 10123 / 100, good := true }] 2026
      = .error (.key " font-family") := by
  constructor
  · have h100 : ((10123 : ℚ) / 100) * 100 = (10123 : ℚ) := by norm_num
    have hfloor : roundHalfEven (((10123 : ℚ) / 100) * 100) = 10123 := by
      rw [h100, roundHalfEven]
      norm_num
    simp only [rowHtml, fmt2, hfloor]
    rfl
  · exact buildHtml_always_fails _ 2026

/-- C10: no invocation of the renderer produces an output string at all
(the deterministic outcome is the `KeyError` raise), so no two
invocations can produce byte-identical output strings. -/
theorem build_html_never_produces_output (entries : List Entry) (y : Int) :
    (build_html entries y).toOption = none := by
  rw [buildHtml_always_fails]
  rfl

/-- Witness for the amended C4 theorem at a concrete record with all four
fields missing: the result is the all-zero record, not `none`. -/
theorem last_earnings_defaults_witness :
    fetch_last_earnings (some [{ actual := none, estimate := none,
                                 revenueActual := none, revenueEstimate := none }])
      = some { actual_eps := 0, estimate_eps := 0,
               actual_revenue := 0, estimate_revenue := 0 } ∧
    fetch_last_earnings none = none ∧ fetch_last_earnings (some []) = none :=
  last_earnings_defaults_missing_fields
    { actual := none, estimate := none, revenueActual := none, revenueEstimate := none }
    [] (by decide) (by decide) (by decide) (by decide)

theorem lexLe_iff (xs : List Char) : ∀ ys : List Char,
    lexLe xs ys = true ↔ (xs = ys ∨ List.Lex (· < ·) xs ys) := by
  induction xs with
  | nil =>
    intro ys
    cases ys with
    | nil => simp [lexLe]
    | cons b bs =>
      constructor
      · intro _
        exact Or.inr List.Lex.nil
      · intro _
        rfl
  | cons a as ih =>
    intro ys
    cases ys with
    | nil =>
      simp only [lexLe, Bool.false_eq_true, false_iff]
      rintro (h | h)
      · exact List.noConfusion h
      · exact List.Lex.not_nil_right _ _ h
    | cons b bs =>
      rw [lexLe]
      rcases lt_trichotomy a b with hab | hab | hab
      · simp only [hab, if_pos, true_iff]
        exact Or.inr (List.Lex.rel hab)
      · subst hab
        rw [if_neg (lt_irrefl a), if_neg (lt_irrefl a), ih bs]
        constructor
        · rintro (rfl | h)
          · exact Or.inl rfl
          · exact Or.inr (List.Lex.cons h)
        · rintro (h | h)
          · exact Or.inl (by injection h)
          · exact Or.inr (List.Lex.cons_iff.mp h)
      · rw [if_neg (asymm hab), if_pos hab]
        simp only [Bool.false_eq_true, false_iff]
        rintro (h | h)
        · injection h with h₁ _
          exact lt_irrefl a (h₁ ▸ hab)
        · cases h with
          | cons h => exact lt_irrefl a hab
          | rel h => exact lt_asymm hab h

theorem lexLe_iff_le (xs ys : List Char) : lexLe xs ys = true ↔ xs ≤ ys := by
  rw [lexLe_iff]
  exact Iff.rfl

theorem symbolLe_iff (a b : Entry) : symbolLe a b = true ↔ a.symbol ≤ b.symbol := by
  rw [symbolLe, lexLe_iff_le, String.le_iff_toList_le]
  exact Iff.rfl

theorem mem_insertEntry (e x : Entry) (l : List Entry) :
    x ∈ insertEntry e l ↔ x = e ∨ x ∈ l := by
  induction l with
  | nil => simp [insertEntry]
  | cons y ys ih =>
    rw [insertEntry]
    by_cases h : symbolLe e y = true
    · simp [h]
    · simp [h, ih]
      tauto

theorem pairwise_insertEntry (e : Entry) (l : List Entry)
    (hl : l.Pairwise (fun a b => a.symbol ≤ b.symbol)) :
    (insertEntry e l).Pairwise (fun a b => a.symbol ≤ b.symbol) := by
  induction l with
  | nil => simp [insertEntry]
  | cons y ys ih =>
    rw [insertEntry]
    rcases List.pairwise_cons.mp hl with ⟨hy, hys⟩
    by_cases h : symbolLe e y = true
    · simp only [if_pos h]
      refine List.pairwise_cons.mpr ⟨?_, hl⟩
      intro z hz
      rcases List.mem_cons.mp hz with rfl | hz
      · exact (symbolLe_iff e z).mp h
      · exact le_trans ((symbolLe_iff e y).mp h) (hy z hz)
    · simp only [if_neg h]
      refine List.pairwise_cons.mpr ⟨?_, ih hys⟩
      intro z hz
      rcases (mem_insertEntry e z ys).mp hz with rfl | hz
      · exact le_of_not_le fun hle => h ((symbolLe_iff z y).mpr hle)
      · exact hy z hz

theorem pairwise_sortEntries (l : List Entry) :
    (sortEntries l).Pairwise (fun a b => a.symbol ≤ b.symbol) := by
  induction l with
  | nil => exact List.Pairwise.nil
  | cons x xs ih => exact pairwise_insertEntry x _ ih

theorem mem_sortEntries (x : Entry) (l : List Entry) :
    x ∈ sortEntries l ↔ x ∈ l := by
  induction l with
  | nil => simp [sortEntries]
  | cons y ys ih =>
    rw [sortEntries, mem_insertEntry]
    simp [ih]

/-- C5: for every input order of constituents, the entry list `main`
passes to the renderer is sorted ascending by symbol in lexicographic
string order; in particular, the two qualifying symbols supplied in
order ZZZ, AAA come out in order AAA, ZZZ. -/
theorem driver_entries_sorted :
    (∀ (w : World) (cs : List Constituent),
      (driverEntries w cs).Pairwise (fun a b => a.symbol ≤ b.symbol)) ∧
    (driverEntries exampleWorld
        [{ symbol := "ZZZ", name := "Zeta Corp" }, { symbol := "AAA", name := "Alpha Corp" }]).map
        (fun e => e.symbol) = ["AAA", "ZZZ"] := by
  constructor
  · intro w cs
    exact pairwise_sortEntries _
  · rfl

/-- C6: a constituent whose quote fetch or earnings fetch comes back as
the `None` sentinel is skipped: the loop's entries are exactly those of
the remaining constituents (so the failing symbol is excluded and the
count excludes it), while both requests for it are still issued and
processing continues with the rest — no error escapes the loop. -/
theorem failed_fetch_skips_symbol (w : World) (c : Constituent) (rest : List Constituent)
    (h : fetch_quote (w.quoteResp c.symbol) = none ∨
        fetch_last_earnings (w.earnResp c.symbol) = none) :
    (fetchLoop w (c :: rest)).1 = (fetchLoop w rest).1 ∧
    (fetchLoop w (c :: rest)).2
      = Request.quote c.symbol :: Request.earnings c.symbol :: (fetchLoop w rest).2 ∧
    driverEntries w (c :: rest) = driverEntries w rest ∧
    (driverEntries w (c :: rest)).length = (driverEntries w rest).length := by
  have key : (fetchLoop w (c :: rest)).1 = (fetchLoop w rest).1 ∧
      (fetchLoop w (c :: rest)).2
        = Request.quote c.symbol :: Request.earnings c.symbol :: (fetchLoop w rest).2 := by
    rcases h with h | h
    · rw [fetchLoop, h]
      exact ⟨rfl, rfl⟩
    · cases hq : fetch_quote (w.quoteResp c.symbol) with
      | none => rw [fetchLoop, hq]; exact ⟨rfl, rfl⟩
      | some q => rw [fetchLoop, hq, h]; exact ⟨rfl, rfl⟩
  have hdrv : driverEntries w (c :: rest) = driverEntries w rest := by
    rw [driverEntries, driverEntries, key.1]
  exact ⟨key.1, key.2, hdrv, by rw [hdrv]⟩

/-- Witness for C6: in `wFail` the quote request for ZZZ fails while its
earnings qualify; the pipeline's entry list is the one of the remaining
constituent alone. -/
theorem failed_fetch_skips_symbol_witness :
    fetch_quote (wFail.quoteResp "ZZZ") = none ∧
    driverEntries wFail [{ symbol := "ZZZ", name := "Zeta Corp" },
                         { symbol := "AAA", name := "Alpha Corp" }]
      = driverEntries wFail [{ symbol := "AAA", name := "Alpha Corp" }] :=
  ⟨rfl,
    (failed_fetch_skips_symbol wFail { symbol := "ZZZ", name := "Zeta Corp" }
      [{ symbol := "AAA", name := "Alpha Corp" }] (Or.inl rfl)).2.2.1⟩

theorem good_of_mem_fetchLoop (w : World) :
    ∀ (cs : List Constituent) (e : Entry), e ∈ (fetchLoop w cs).1 → e.good = true := by
  intro cs
  induction cs with
  | nil => intro e he; simp [fetchLoop] at he
  | cons c rest ih =>
    intro e he
    cases hq : fetch_quote (w.quoteResp c.symbol) with
    | none =>
      simp only [fetchLoop, hq] at he
      exact ih e he
    | some q =>
      cases hearn : fetch_last_earnings (w.earnResp c.symbol) with
      | none =>
        simp only [fetchLoop, hq, hearn] at he
        exact ih e he
      | some earn =>
        cases hg : is_good_earnings earn with
        | false =>
          simp only [fetchLoop, hq, hearn, hg, Bool.false_eq_true, if_false] at he
          exact ih e he
        | true =>
          simp only [fetchLoop, hq, hearn, hg, if_true] at he
          rcases List.mem_cons.mp he with rfl | he
          · rfl
          · exact ih e he

/-- C8: every entry in the list the driver builds and passes to the
renderer has `good = true` — non-qualifying entries are dropped inside
the loop, before rendering. -/
theorem driver_entries_all_good (w : World) (cs : List Constituent) (e : Entry)
    (he : e ∈ driverEntries w cs) : e.good = true := by
  rw [driverEntries, mem_sortEntries] at he
  exact good_of_mem_fetchLoop w cs e he

/-- Witness for C8 at the concrete qualifying entry of `exampleWorld`. -/
theorem driver_entries_all_good_witness :
    ({ name := "Alpha Corp", symbol := "AAA", price := 20, good := true } : Entry)
        ∈ driverEntries exampleWorld [{ symbol := "AAA", name := "Alpha Corp" }] ∧
    ({ name := "Alpha Corp", symbol := "AAA", price := 20, good := true } : Entry).good = true := by
  have hmem : ({ name := "Alpha Corp", symbol := "AAA", price := 20, good := true } : Entry)
      ∈ driverEntries exampleWorld [{ symbol := "AAA", name := "Alpha Corp" }] := by
    show _ ∈ ([{ name := "Alpha Corp", symbol := "AAA", price := 20, good := true }] : List Entry)
    exact List.mem_singleton.mpr rfl
  exact ⟨hmem, driver_entries_all_good exampleWorld _ _ hmem⟩

/-- C7: when the credential environment variable is absent (or empty,
which Python's truthiness also rejects), `main` raises the fatal
configuration `RuntimeError` with an empty request log — zero
constituent fetches and zero market-data fetches — and produces no
output (the outcome is the error, never the written-HTML success). -/
theorem missing_credential_fatal_before_requests (token : Option String) (w : World) (y : Int)
    (h : token = none ∨ token = some "") :
    mainModel token w y = (.error (.config tokenErrMsg), []) := by
  rcases h with rfl | rfl <;> rfl

/-- Witness for C7 with the variable absent. -/
theorem missing_credential_witness :
    (none = (none : Option String) ∨ none = some "") ∧
    mainModel none wFail 2026 = (.error (.config tokenErrMsg), []) :=
  ⟨Or.inl rfl, missing_credential_fatal_before_requests none wFail 2026 (Or.inl rfl)⟩

end UsStockInfo
